import Mathlib

/-
Shallow embedding of the core of `src/app.py` (a Streamlit + SQLite student
record keeper).  The three SQLite tables become explicit Lean lists carried in
a `DB` record together with the AUTOINCREMENT counters; SQLite REAL values are
modelled exactly by rationals.  Each Python function of the business-logic /
data-operation layer is translated to a Lean function of the same name acting
on a `DB` value; UI-only effects (st.success, st.warning, ...) become result
codes.
-/

namespace StudentDB

/-- Row of the `students` table (student_id INTEGER PRIMARY KEY AUTOINCREMENT,
roll TEXT UNIQUE, name TEXT, program TEXT). -/
structure Student where
  student_id : Nat
  roll : String
  name : String
  program : String
deriving DecidableEq, Repr

/-- Row of the `subjects` table (subject_id INTEGER PRIMARY KEY AUTOINCREMENT,
code TEXT UNIQUE, title TEXT, credits REAL). -/
structure Subject where
  subject_id : Nat
  code : String
  title : String
  credits : ℚ
deriving DecidableEq, Repr

/-- Row of the `marks` table (mark_id INTEGER PRIMARY KEY AUTOINCREMENT,
student_id INTEGER, subject_id INTEGER, marks REAL, max_marks REAL). -/
structure Mark where
  mark_id : Nat
  student_id : Nat
  subject_id : Nat
  marks : ℚ
  max_marks : ℚ
deriving DecidableEq, Repr

/-- The whole store: the three tables in rowid order plus the AUTOINCREMENT
counters that hand out fresh primary keys. -/
structure DB where
  students : List Student
  subjects : List Subject
  marks : List Mark
  next_student_id : Nat
  next_subject_id : Nat
  next_mark_id : Nat
deriving DecidableEq, Repr

/-- `grade_from_percent` of app.py lines 59-67: the fixed grade table, first
matching band from the highest threshold down. -/
def grade_from_percent (p : ℚ) : String × ℚ :=
  if p ≥ 90 then ("A+", 10)
  else if p ≥ 80 then ("A", 9)
  else if p ≥ 70 then ("B+", 8)
  else if p ≥ 60 then ("B", 7)
  else if p ≥ 50 then ("C", 6)
  else if p ≥ 40 then ("D", 5)
  else ("F", 0)

/-- Rounding of an exact rational to the nearest integer, ties to even: the
model of Python round applied to an exactly representable value. -/
def roundHalfEven (q : ℚ) : ℤ :=
  let f : ℤ := ⌊q⌋
  let r : ℚ := q - f
  if r < 1/2 then f
  else if r > 1/2 then f + 1
  else if f % 2 = 0 then f else f + 1

/-- Python round(x, 2) on an exact rational value. -/
def round2 (q : ℚ) : ℚ := ((roundHalfEven (q * 100) : ℤ) : ℚ) / 100

/-- One row of the SELECT of compute_student_report (app.py lines 71-77):
students JOIN marks ON student_id JOIN subjects ON subject_id, restricted to
one student_id. -/
structure RawRow where
  student_id : Nat
  roll : String
  name : String
  code : String
  title : String
  credits : ℚ
  marks : ℚ
  max_marks : ℚ
deriving DecidableEq, Repr

/-- The join of compute_student_report, as nested loops over the three tables
in rowid order (the textbook semantics of the two inner joins with the WHERE
restriction on s.student_id). -/
def raw_rows (db : DB) (sid : Nat) : List RawRow :=
  (db.students.filter (fun s => s.student_id == sid)).flatMap (fun s =>
    (db.marks.filter (fun m => m.student_id == s.student_id)).flatMap (fun m =>
      (db.subjects.filter (fun sub => sub.subject_id == m.subject_id)).map (fun sub =>
        ⟨s.student_id, s.roll, s.name, sub.code, sub.title, sub.credits, m.marks, m.max_marks⟩)))

/-- A row of the report dataframe after the derived columns percent, grade,
grade_point and credit_gp have been added (app.py lines 84-89). -/
structure GradeRow where
  student_id : Nat
  roll : String
  name : String
  code : String
  title : String
  credits : ℚ
  marks : ℚ
  max_marks : ℚ
  percent : ℚ
  grade : String
  grade_point : ℚ
  credit_gp : ℚ
deriving DecidableEq, Repr

/-- Adds the derived columns of app.py lines 84-89 to one joined row:
percent = marks / max_marks * 100, (grade, grade_point) = grade_from_percent,
credit_gp = credits * grade_point.  Rational division is total with q / 0 = 0;
the source, under pandas, evaluates the same division without any guard (a
zero divisor there yields an IEEE infinity rather than a fault). -/
def to_grade_row (r : RawRow) : GradeRow :=
  let percent : ℚ := r.marks / r.max_marks * 100
  let g := grade_from_percent percent
  ⟨r.student_id, r.roll, r.name, r.code, r.title, r.credits, r.marks, r.max_marks,
   percent, g.1, g.2, r.credits * g.2⟩

/-- The summary dict built at app.py lines 95-102 (generated_at, a wall-clock
timestamp, is the one field not modelled: it carries no data from the store). -/
structure ReportSummary where
  roll : String
  name : String
  total_credits : ℚ
  total_credit_gp : ℚ
  cgpa : ℚ
deriving DecidableEq, Repr

/-- compute_student_report of app.py lines 69-103: run the join; on an empty
result return None; otherwise add the derived columns, sum credits and
credit_gp, set cgpa = total_credit_gp / total_credits when total_credits > 0
else 0.0, round it to 2 places, and take roll and name from the first joined
row (df.iloc[0]). -/
def compute_student_report (db : DB) (sid : Nat) :
    Option (List GradeRow × ReportSummary) :=
  match raw_rows db sid with
  | [] => none
  | r0 :: rest =>
    let rows := (r0 :: rest).map to_grade_row
    let total_credits := (rows.map (fun r => r.credits)).sum
    let total_credit_gp := (rows.map (fun r => r.credit_gp)).sum
    let cgpa := if total_credits > 0 then total_credit_gp / total_credits else 0
    some (rows, ⟨r0.roll, r0.name, total_credits, total_credit_gp, round2 cgpa⟩)

/-- True exactly when the percent computation of compute_student_report
evaluates the division marks / max_marks with a zero divisor on some joined
row of this student. -/
def zero_divisor_in_report (db : DB) (sid : Nat) : Bool :=
  (raw_rows db sid).any (fun r => r.max_marks == 0)

/-- Outcome codes of add_student / add_subject: the INSERT either commits or
hits the UNIQUE constraint (sqlite3.IntegrityError, surfaced as st.warning). -/
inductive AddResult
  | added
  | duplicate
deriving DecidableEq, Repr

/-- add_student of app.py lines 108-118: INSERT INTO students; the UNIQUE
constraint on roll rejects a duplicate roll and nothing is committed. -/
def add_student (db : DB) (roll name program : String) : AddResult × DB :=
  if db.students.any (fun s => s.roll == roll) then
    (.duplicate, db)
  else
    (.added,
      { db with
        students := db.students ++ [⟨db.next_student_id, roll, name, program⟩],
        next_student_id := db.next_student_id + 1 })

/-- add_subject of app.py lines 120-130: INSERT INTO subjects; the UNIQUE
constraint on code rejects a duplicate code and nothing is committed. -/
def add_subject (db : DB) (code title : String) (credits : ℚ) : AddResult × DB :=
  if db.subjects.any (fun sub => sub.code == code) then
    (.duplicate, db)
  else
    (.added,
      { db with
        subjects := db.subjects ++ [⟨db.next_subject_id, code, title, credits⟩],
        next_subject_id := db.next_subject_id + 1 })

/-- Outcome codes of add_marks: the two early returns (st.error) and the
committed write (st.success). -/
inductive MarksResult
  | saved
  | studentNotFound
  | subjectNotFound
deriving DecidableEq, Repr

/-- add_marks of app.py lines 132-161: resolve roll, resolve subject code
(each by the first matching row, as cur.fetchone does), then either UPDATE the
row whose mark_id the lookup on (student_id, subject_id) returned, or INSERT a
new mark.  On a failed lookup the function returns before any write. -/
def add_marks (db : DB) (roll subject_code : String) (marks max_marks : ℚ) :
    MarksResult × DB :=
  match db.students.find? (fun s => s.roll == roll) with
  | none => (.studentNotFound, db)
  | some s =>
    match db.subjects.find? (fun sub => sub.code == subject_code) with
    | none => (.subjectNotFound, db)
    | some sub =>
      match db.marks.find? (fun m =>
          m.student_id == s.student_id && m.subject_id == sub.subject_id) with
      | some existing =>
        (.saved,
          { db with
            marks := db.marks.map (fun m =>
              if m.mark_id == existing.mark_id then
                { m with marks := marks, max_marks := max_marks }
              else m) })
      | none =>
        (.saved,
          { db with
            marks := db.marks ++
              [⟨db.next_mark_id, s.student_id, sub.subject_id, marks, max_marks⟩],
            next_mark_id := db.next_mark_id + 1 })

/-- The marks rows of one (student, subject) pair. -/
def pairRows (db : DB) (sid subid : Nat) : List Mark :=
  db.marks.filter (fun m => m.student_id == sid && m.subject_id == subid)

/-- How many marks rows one (student, subject) pair has. -/
def pairCount (db : DB) (sid subid : Nat) : Nat :=
  (pairRows db sid subid).length

/-- get_all_students_df of app.py lines 163-167: all students ORDER BY roll
(String order in Lean is the byte order sqlite uses for TEXT). -/
def get_all_students (db : DB) : List Student :=
  db.students.insertionSort (fun a b => a.roll ≤ b.roll)

/-- One row of the class CGPA table assembled by the Dashboard loop
(app.py lines 210-220). -/
structure RankRow where
  roll : String
  name : String
  cgpa : ℚ
  total_credits : ℚ
deriving DecidableEq, Repr

/-- The Dashboard "Compute CGPA for all students" action, app.py lines
209-222: walk the students in roll order, keep each non-None report as a
(roll, name, cgpa, total_credits) row, then
pd.DataFrame(out).sort_values(["cgpa"], ascending=False).  For a single sort
key pandas argsorts ascending with the default numpy kind and then reverses
the indexer; numpy falls back to a stable insertion sort on the short runs
involved here, so the model is the reverse of a stable ascending sort by
cgpa. -/
def rank_all (db : DB) : List RankRow :=
  ((((get_all_students db).filterMap (fun s =>
    (compute_student_report db s.student_id).map (fun p =>
      ⟨p.2.roll, p.2.name, p.2.cgpa, p.2.total_credits⟩))).insertionSort
    (fun a b => a.cgpa ≤ b.cgpa)).reverse)

/-- Store of the worked CGPA example of the spec: one student with
Mark(marks=95, max=100, credits=4) and Mark(marks=65, max=100, credits=3). -/
def exDB : DB :=
  { students := [⟨1, "R1", "Alice", "BSc"⟩],
    subjects := [⟨1, "S1", "Math", 4⟩, ⟨2, "S2", "Phys", 3⟩],
    marks := [⟨1, 1, 1, 95, 100⟩, ⟨2, 1, 2, 65, 100⟩],
    next_student_id := 2, next_subject_id := 3, next_mark_id := 3 }

/-- The two rows of the report of exDB student 1, spelled out. -/
def exRows : List GradeRow :=
  [⟨1, "R1", "Alice", "S1", "Math", 4, 95, 100, 95, "A+", 10, 40⟩,
   ⟨1, "R1", "Alice", "S2", "Phys", 3, 65, 100, 65, "B", 7, 21⟩]

/-- The summary of the report of exDB student 1, spelled out. -/
def exSumm : ReportSummary := ⟨"R1", "Alice", 7, 61, 871/100⟩

/-- Store with one student (student_id 1) and one subject but no marks at
all: student 1 exists with no data, student_id 2 does not exist. -/
def noMarksDB : DB :=
  { students := [⟨1, "R1", "Alice", ""⟩],
    subjects := [⟨1, "S1", "Math", 3⟩],
    marks := [],
    next_student_id := 2, next_subject_id := 2, next_mark_id := 1 }

/-- Store with two students tied on cgpa 9.0 (both scored 80/100 on the one
subject), rolls R1 before R2 in iteration order. -/
def tieDB : DB :=
  { students := [⟨1, "R1", "Alice", ""⟩, ⟨2, "R2", "Bob", ""⟩],
    subjects := [⟨1, "S1", "Math", 3⟩],
    marks := [⟨1, 1, 1, 80, 100⟩, ⟨2, 2, 1, 80, 100⟩],
    next_student_id := 3, next_subject_id := 2, next_mark_id := 3 }

/-- C2: grade_from_percent is a total function of the percent and returns
exactly the banded pair, every boundary value belonging to the higher band:
p ≥ 90 gives (A+, 10.0), 90 > p ≥ 80 gives (A, 9.0), 80 > p ≥ 70 gives
(B+, 8.0), 70 > p ≥ 60 gives (B, 7.0), 60 > p ≥ 50 gives (C, 6.0),
50 > p ≥ 40 gives (D, 5.0), and otherwise (F, 0.0). -/
theorem C2_grade_bands (p : ℚ) :
    (90 ≤ p → grade_from_percent p = ("A+", 10)) ∧
    (80 ≤ p ∧ p < 90 → grade_from_percent p = ("A", 9)) ∧
    (70 ≤ p ∧ p < 80 → grade_from_percent p = ("B+", 8)) ∧
    (60 ≤ p ∧ p < 70 → grade_from_percent p = ("B", 7)) ∧
    (50 ≤ p ∧ p < 60 → grade_from_percent p = ("C", 6)) ∧
    (40 ≤ p ∧ p < 50 → grade_from_percent p = ("D", 5)) ∧
    (p < 40 → grade_from_percent p = ("F", 0)) := by
  simp only [grade_from_percent, ge_iff_le]
  split_ifs with h1 h2 h3 h4 h5 h6 <;>
    refine ⟨fun h => ?_, fun h => ?_, fun h => ?_, fun h => ?_, fun h => ?_,
      fun h => ?_, fun h => ?_⟩ <;>
    first
      | rfl
      | (exfalso; obtain ⟨ha, hb⟩ := h; linarith)
      | (exfalso; linarith)

/-- Witness for C2 at concrete percents: the boundary 90 lands in the A+
band, 89 in the A band, and 35 in the F band. -/
theorem C2_grade_bands_witness :
    grade_from_percent 90 = ("A+", 10) ∧ grade_from_percent 89 = ("A", 9) ∧
      grade_from_percent 35 = ("F", 0) :=
  ⟨(C2_grade_bands 90).1 (by norm_num),
   (C2_grade_bands 89).2.1 (by norm_num),
   (C2_grade_bands 35).2.2.2.2.2.2 (by norm_num)⟩

/-- C9: the grade point returned by grade_from_percent is monotone in the
percent: p1 ≤ p2 implies grade_point(p1) ≤ grade_point(p2). -/
theorem C9_grade_point_monotone (p1 p2 : ℚ) (h : p1 ≤ p2) :
    (grade_from_percent p1).2 ≤ (grade_from_percent p2).2 := by
  simp only [grade_from_percent]
  split_ifs <;> norm_num <;> linarith

/-- Witness for C9 at a concrete pair of percents. -/
theorem C9_grade_point_monotone_witness :
    (grade_from_percent 60).2 ≤ (grade_from_percent 95).2 :=
  C9_grade_point_monotone 60 95 (by norm_num)

/-- C8: when the roll does not resolve to a student, or the subject code does
not resolve to a subject, add_marks fails with the matching not-found outcome
and returns the store completely unchanged. -/
theorem C8_add_marks_not_found (db : DB) (roll code : String) (m mm : ℚ) :
    (db.students.find? (fun s => s.roll == roll) = none →
      add_marks db roll code m mm = (.studentNotFound, db)) ∧
    (∀ s, db.students.find? (fun x => x.roll == roll) = some s →
      db.subjects.find? (fun sub => sub.code == code) = none →
      add_marks db roll code m mm = (.subjectNotFound, db)) := by
  constructor
  · intro h
    simp [add_marks, h]
  · intro s hs hsub
    simp [add_marks, hs, hsub]

/-- Witness for C8: on the concrete store with one student R1 and one subject
S1, an unknown roll and an unknown subject code are both rejected with the
store unchanged. -/
theorem C8_add_marks_not_found_witness :
    add_marks noMarksDB "R9" "S1" 50 100 = (.studentNotFound, noMarksDB) ∧
    add_marks noMarksDB "R1" "S9" 50 100 = (.subjectNotFound, noMarksDB) :=
  ⟨(C8_add_marks_not_found noMarksDB "R9" "S1" 50 100).1 (by simp [noMarksDB]),
   (C8_add_marks_not_found noMarksDB "R1" "S9" 50 100).2 ⟨1, "R1", "Alice", ""⟩
     (by simp [noMarksDB]) (by simp [noMarksDB])⟩

/-- C7: when the roll (resp. subject code) already exists, add_student
(resp. add_subject) fails as a duplicate and leaves the store unchanged, so
exactly one row with that key remains and it keeps its original name
(resp. title); when the key is fresh, a new row carrying the fresh
system-assigned identifier is appended. -/
theorem C7_add_duplicate_and_fresh (db : DB) (roll nm pr code title : String)
    (cr : ℚ) (s0 : Student) (sub0 : Subject) :
    (db.students.filter (fun s => s.roll == roll) = [s0] →
      add_student db roll nm pr = (.duplicate, db) ∧
      ((add_student db roll nm pr).2.students.filter (fun s => s.roll == roll)).map
          (fun s => s.name) = [s0.name]) ∧
    ((∀ s ∈ db.students, s.roll ≠ roll) →
      (∀ s ∈ db.students, s.student_id < db.next_student_id) →
      add_student db roll nm pr =
        (.added, { db with
          students := db.students ++ [⟨db.next_student_id, roll, nm, pr⟩],
          next_student_id := db.next_student_id + 1 }) ∧
      ∀ s ∈ db.students, s.student_id ≠ db.next_student_id) ∧
    (db.subjects.filter (fun sub => sub.code == code) = [sub0] →
      add_subject db code title cr = (.duplicate, db) ∧
      ((add_subject db code title cr).2.subjects.filter (fun sub => sub.code == code)).map
          (fun sub => sub.title) = [sub0.title]) ∧
    ((∀ sub ∈ db.subjects, sub.code ≠ code) →
      (∀ sub ∈ db.subjects, sub.subject_id < db.next_subject_id) →
      add_subject db code title cr =
        (.added, { db with
          subjects := db.subjects ++ [⟨db.next_subject_id, code, title, cr⟩],
          next_subject_id := db.next_subject_id + 1 }) ∧
      ∀ sub ∈ db.subjects, sub.subject_id ≠ db.next_subject_id) := by
  refine ⟨fun hfilter => ?_, fun hfresh hids => ?_, fun hfilter => ?_,
    fun hfresh hids => ?_⟩
  · have hmem : s0 ∈ db.students.filter (fun s => s.roll == roll) := by
      rw [hfilter]; exact List.mem_cons_self s0 []
    obtain ⟨hmem', hpred⟩ := List.mem_filter.mp hmem
    have hany : db.students.any (fun s => s.roll == roll) = true :=
      List.any_eq_true.mpr ⟨s0, hmem', hpred⟩
    constructor
    · simp [add_student, hany]
    · simp [add_student, hany, hfilter]
  · have hany : db.students.any (fun s => s.roll == roll) = false := by
      rw [List.any_eq_false]
      intro s hsmem
      simpa using hfresh s hsmem
    constructor
    · simp [add_student, hany]
    · intro s hs
      exact Nat.ne_of_lt (hids s hs)
  · have hmem : sub0 ∈ db.subjects.filter (fun sub => sub.code == code) := by
      rw [hfilter]; exact List.mem_cons_self sub0 []
    obtain ⟨hmem', hpred⟩ := List.mem_filter.mp hmem
    have hany : db.subjects.any (fun sub => sub.code == code) = true :=
      List.any_eq_true.mpr ⟨sub0, hmem', hpred⟩
    constructor
    · simp [add_subject, hany]
    · simp [add_subject, hany, hfilter]
  · have hany : db.subjects.any (fun sub => sub.code == code) = false := by
      rw [List.any_eq_false]
      intro sub hsmem
      simpa using hfresh sub hsmem
    constructor
    · simp [add_subject, hany]
    · intro sub hs
      exact Nat.ne_of_lt (hids sub hs)

/-- Witness for C7 on the concrete store holding student R1 and subject S1:
an add with the taken roll (resp. code) is rejected with the store unchanged,
an add with a fresh roll (resp. code) appends the new row with the next free
identifier. -/
theorem C7_add_duplicate_and_fresh_witness :
    add_student noMarksDB "R1" "Bob" "X" = (.duplicate, noMarksDB) ∧
    add_student noMarksDB "R2" "Bob" "X" =
      (.added, { noMarksDB with
        students := noMarksDB.students ++ [⟨2, "R2", "Bob", "X"⟩],
        next_student_id := 3 }) ∧
    add_subject noMarksDB "S1" "Again" 4 = (.duplicate, noMarksDB) ∧
    add_subject noMarksDB "S2" "Phys" 4 =
      (.added, { noMarksDB with
        subjects := noMarksDB.subjects ++ [⟨2, "S2", "Phys", 4⟩],
        next_subject_id := 3 }) :=
  ⟨((C7_add_duplicate_and_fresh noMarksDB "R1" "Bob" "X" "S1" "Again" 4
      ⟨1, "R1", "Alice", ""⟩ ⟨1, "S1", "Math", 3⟩).1 (by simp [noMarksDB])).1,
   ((C7_add_duplicate_and_fresh noMarksDB "R2" "Bob" "X" "S1" "Again" 4
      ⟨1, "R1", "Alice", ""⟩ ⟨1, "S1", "Math", 3⟩).2.1 (by simp [noMarksDB])
      (by simp [noMarksDB])).1,
   ((C7_add_duplicate_and_fresh noMarksDB "R1" "Bob" "X" "S1" "Again" 4
      ⟨1, "R1", "Alice", ""⟩ ⟨1, "S1", "Math", 3⟩).2.2.1 (by simp [noMarksDB])).1,
   ((C7_add_duplicate_and_fresh noMarksDB "R1" "Bob" "X" "S2" "Phys" 4
      ⟨1, "R1", "Alice", ""⟩ ⟨1, "S1", "Math", 3⟩).2.2.2 (by simp [noMarksDB])
      (by simp [noMarksDB])).1⟩

/-- The worked example store evaluates to the spelled-out report: two rows
(A+ on 95/100 over 4 credits, B on 65/100 over 3 credits) and the summary
with total_credits 7, total_credit_gp 61, cgpa 8.71. -/
theorem exDB_report : compute_student_report exDB 1 = some (exRows, exSumm) := by
  simp [compute_student_report, raw_rows, to_grade_row, grade_from_percent, round2,
    roundHalfEven, exDB, exRows, exSumm]
  norm_num [Int.fract]

/-- C1: whenever compute_student_report returns a result, the summary fields
satisfy total_credits = sum of the credits of the returned rows,
total_credit_gp = sum of their credits times grade_point, and cgpa is
total_credit_gp / total_credits rounded to 2 places when total_credits is
positive and 0.0 otherwise; on the worked example (95/100 over 4 credits and
65/100 over 3 credits) the totals are 7 and 61 and the cgpa is 8.71. -/
theorem C1_report_aggregates :
    (∀ db sid rows summ, compute_student_report db sid = some (rows, summ) →
      summ.total_credits = (rows.map (fun r => r.credits)).sum ∧
      summ.total_credit_gp = (rows.map (fun r => r.credit_gp)).sum ∧
      (∀ r ∈ rows, r.credit_gp = r.credits * r.grade_point ∧
        (r.grade, r.grade_point) = grade_from_percent r.percent) ∧
      summ.cgpa = round2 (if 0 < summ.total_credits then
        summ.total_credit_gp / summ.total_credits else 0)) ∧
    compute_student_report exDB 1 = some (exRows, exSumm) ∧
    exSumm.total_credits = 7 ∧ exSumm.total_credit_gp = 61 ∧
    exSumm.cgpa = 871/100 := by
  refine ⟨?_, exDB_report, rfl, rfl, rfl⟩
  intro db sid rows summ h
  unfold compute_student_report at h
  cases hraw : raw_rows db sid with
  | nil => rw [hraw] at h; exact absurd h (by simp)
  | cons r0 rest =>
    rw [hraw] at h
    simp only [Option.some.injEq, Prod.mk.injEq] at h
    obtain ⟨rfl, rfl⟩ := h
    refine ⟨rfl, rfl, ?_, rfl⟩
    intro r hr
    obtain ⟨x, hx, rfl⟩ := List.mem_map.mp hr
    exact ⟨rfl, rfl⟩

/-- Witness for C1 at the worked example: the summary aggregates of the
spelled-out report rows. -/
theorem C1_report_aggregates_witness :
    exSumm.total_credits = (exRows.map (fun r => r.credits)).sum ∧
    exSumm.total_credit_gp = (exRows.map (fun r => r.credit_gp)).sum ∧
    exSumm.cgpa = round2 (if 0 < exSumm.total_credits then
      exSumm.total_credit_gp / exSumm.total_credits else 0) :=
  ⟨(C1_report_aggregates.1 exDB 1 exRows exSumm exDB_report).1,
   (C1_report_aggregates.1 exDB 1 exRows exSumm exDB_report).2.1,
   (C1_report_aggregates.1 exDB 1 exRows exSumm exDB_report).2.2.2⟩

/-- Every joined row of a report carries the queried student_id, the roll and
name of a stored student with that student_id, and the marks and max_marks of
a stored mark of that student. -/
theorem raw_rows_fields (db : DB) (sid : Nat) (r : RawRow) (hr : r ∈ raw_rows db sid) :
    r.student_id = sid ∧
    (∃ s ∈ db.students, s.student_id = sid ∧ r.roll = s.roll ∧ r.name = s.name) ∧
    (∃ mk ∈ db.marks, mk.student_id = sid ∧ r.marks = mk.marks ∧
      r.max_marks = mk.max_marks) := by
  simp only [raw_rows, List.mem_flatMap, List.mem_filter, List.mem_map,
    beq_iff_eq] at hr
  obtain ⟨s, ⟨hs, hsid⟩, m, ⟨hm, hmid⟩, sub, ⟨hsub, hsubid⟩, rfl⟩ := hr
  exact ⟨hsid, ⟨s, hs, hsid, rfl, rfl⟩, ⟨m, hm, by rw [hmid, hsid], rfl, rfl⟩⟩

/-- C4 counterexample: in the store where student_id 1 is a real student with
no marks and student_id 2 does not exist at all, compute_student_report
returns the same outcome (None) for both, so its result alone does not let
the caller tell "no data" apart from "student does not exist". -/
theorem C4_counterexample :
    noMarksDB.students.map Student.student_id = [1] ∧
    noMarksDB.marks = [] ∧
    compute_student_report noMarksDB 1 = none ∧
    compute_student_report noMarksDB 2 = none ∧
    compute_student_report noMarksDB 1 = compute_student_report noMarksDB 2 := by
  refine ⟨rfl, rfl, ?_, ?_, ?_⟩ <;> simp [compute_student_report, raw_rows, noMarksDB]

/-- C4 as amended: a student with no recorded marks gets None rather than a
fabricated summary, and a student_id that matches no student also gets None;
the two outcomes are the same value, distinguishable only by separately
consulting the students table as the UI pages do. -/
theorem C4_no_marks_yields_none (db : DB) (sid : Nat) :
    ((∀ m ∈ db.marks, m.student_id ≠ sid) → compute_student_report db sid = none) ∧
    ((∀ s ∈ db.students, s.student_id ≠ sid) → compute_student_report db sid = none) := by
  have key : raw_rows db sid = [] → compute_student_report db sid = none := by
    intro hraw
    unfold compute_student_report
    rw [hraw]
  constructor
  · intro hm
    apply key
    simp only [raw_rows, List.flatMap_eq_nil_iff, List.mem_filter, beq_iff_eq]
    rintro s ⟨hs, hsid⟩ x ⟨hx, hxid⟩
    exact absurd (hxid.trans hsid) (hm x hx)
  · intro hs
    apply key
    have hfil : db.students.filter (fun s => s.student_id == sid) = [] := by
      simp only [List.filter_eq_nil_iff, beq_iff_eq]
      exact hs
    rw [raw_rows, hfil]
    rfl

/-- Witness for C4 as amended, on the concrete store: the no-marks student 1
and the nonexistent student 2 both evaluate to None. -/
theorem C4_no_marks_yields_none_witness :
    compute_student_report noMarksDB 1 = none ∧
    compute_student_report noMarksDB 2 = none :=
  ⟨(C4_no_marks_yields_none noMarksDB 1).1 (by simp [noMarksDB]),
   (C4_no_marks_yields_none noMarksDB 2).2 (by simp [noMarksDB])⟩

/-- C5 counterexample: add_marks accepts max_marks = 0 without any guard --
the mark row is stored as supplied, the report then evaluates the division
marks / max_marks with a zero divisor, and a summary is still produced, so
the input is neither rejected before the percent computation nor kept away
from the division. -/
theorem C5_counterexample :
    (add_marks noMarksDB "R1" "S1" 50 0).1 = MarksResult.saved ∧
    (add_marks noMarksDB "R1" "S1" 50 0).2.marks = [⟨1, 1, 1, 50, 0⟩] ∧
    zero_divisor_in_report (add_marks noMarksDB "R1" "S1" 50 0).2 1 = true ∧
    (compute_student_report (add_marks noMarksDB "R1" "S1" 50 0).2 1).isSome = true := by
  have hadd : add_marks noMarksDB "R1" "S1" 50 0 =
      (.saved, { noMarksDB with marks := [⟨1, 1, 1, 50, 0⟩], next_mark_id := 2 }) := by
    simp [add_marks, noMarksDB]
  rw [hadd]
  refine ⟨rfl, rfl, by simp [zero_divisor_in_report, raw_rows, noMarksDB], ?_⟩
  simp [compute_student_report, raw_rows, noMarksDB]

/-- C5 as amended: the core functions themselves do not validate max_marks;
the guard lives at the UI form, whose number input only submits
max_marks ≥ 1.  Calls restricted to positive max_marks preserve the
invariant that every stored mark has positive max_marks, and under that
invariant the division of the percent computation never has a zero
divisor. -/
theorem C5_max_marks_guard (db : DB) (roll code : String) (m mm : ℚ) :
    (0 < mm → (∀ mk ∈ db.marks, 0 < mk.max_marks) →
      ∀ mk ∈ (add_marks db roll code m mm).2.marks, 0 < mk.max_marks) ∧
    ((∀ mk ∈ db.marks, 0 < mk.max_marks) →
      ∀ sid, zero_divisor_in_report db sid = false) := by
  constructor
  · intro hmm hpos mk hmk
    cases hs : db.students.find? (fun s => s.roll == roll) with
    | none =>
      simp only [add_marks, hs] at hmk
      exact hpos mk hmk
    | some s =>
      cases hsub : db.subjects.find? (fun sub => sub.code == code) with
      | none =>
        simp only [add_marks, hs, hsub] at hmk
        exact hpos mk hmk
      | some sub =>
        cases hf : db.marks.find? (fun x =>
            x.student_id == s.student_id && x.subject_id == sub.subject_id) with
        | some e =>
          simp only [add_marks, hs, hsub, hf, List.mem_map] at hmk
          obtain ⟨x, hx, rfl⟩ := hmk
          by_cases hid : (x.mark_id == e.mark_id) = true
          · simpa [hid] using hmm
          · simpa [hid] using hpos x hx
        | none =>
          simp only [add_marks, hs, hsub, hf, List.mem_append,
            List.mem_singleton] at hmk
          rcases hmk with hmk | rfl
          · exact hpos mk hmk
          · exact hmm
  · intro hpos sid
    unfold zero_divisor_in_report
    rw [List.any_eq_false]
    intro r hr
    obtain ⟨-, -, mk, hmk, -, -, hmax⟩ := raw_rows_fields db sid r hr
    have : 0 < r.max_marks := hmax ▸ hpos mk hmk
    simp only [beq_iff_eq]
    exact ne_of_gt this

/-- Witness for C5 as amended: a UI-shaped call with max_marks = 100 on the
empty-marks store leaves only positive max_marks, and the fully populated
example store never divides by zero in its report. -/
theorem C5_max_marks_guard_witness :
    (0:ℚ) < (Mark.mk 1 1 1 50 100).max_marks ∧
    zero_divisor_in_report exDB 1 = false :=
  ⟨(C5_max_marks_guard noMarksDB "R1" "S1" 50 100).1 (by norm_num)
      (by simp [noMarksDB]) ⟨1, 1, 1, 50, 100⟩
      (by simp [add_marks, noMarksDB]),
   (C5_max_marks_guard exDB "" "" 0 0).2 (by norm_num [exDB]) 1⟩

/-- add_marks never touches the students or subjects tables. -/
theorem add_marks_keeps_entities (db : DB) (roll code : String) (m mm : ℚ) :
    (add_marks db roll code m mm).2.students = db.students ∧
    (add_marks db roll code m mm).2.subjects = db.subjects := by
  cases hs : db.students.find? (fun s => s.roll == roll) with
  | none => simp [add_marks, hs]
  | some s =>
    cases hsub : db.subjects.find? (fun sub => sub.code == code) with
    | none => simp [add_marks, hs, hsub]
    | some sub =>
      cases hf : db.marks.find? (fun x =>
          x.student_id == s.student_id && x.subject_id == sub.subject_id) with
      | some e => simp [add_marks, hs, hsub, hf]
      | none => simp [add_marks, hs, hsub, hf]

/-- After a resolving add_marks call on a store with at most one mark for the
(student, subject) pair, the call reports success and exactly one mark row for
the pair remains, carrying the supplied marks and max_marks. -/
theorem add_marks_pair_state (db : DB) (roll code : String) (m mm : ℚ)
    (s : Student) (sub : Subject)
    (hs : db.students.find? (fun x => x.roll == roll) = some s)
    (hsub : db.subjects.find? (fun x => x.code == code) = some sub)
    (hle : pairCount db s.student_id sub.subject_id ≤ 1) :
    (add_marks db roll code m mm).1 = .saved ∧
    pairCount (add_marks db roll code m mm).2 s.student_id sub.subject_id = 1 ∧
    ∀ r ∈ pairRows (add_marks db roll code m mm).2 s.student_id sub.subject_id,
      r.marks = m ∧ r.max_marks = mm := by
  cases hf : db.marks.find? (fun x =>
      x.student_id == s.student_id && x.subject_id == sub.subject_id) with
  | none =>
    have hnil : db.marks.filter (fun x =>
        x.student_id == s.student_id && x.subject_id == sub.subject_id) = [] := by
      rw [List.filter_eq_nil_iff]
      intro x hx
      exact List.find?_eq_none.mp hf x hx
    refine ⟨by simp [add_marks, hs, hsub, hf], ?_, ?_⟩
    · simp [add_marks, hs, hsub, hf, pairCount, pairRows, List.filter_append, hnil]
    · intro r hr
      simp only [add_marks, hs, hsub, hf, pairRows, List.filter_append, hnil,
        List.nil_append] at hr
      simp only [List.filter_cons, beq_self_eq_true, Bool.and_self, if_pos,
        List.filter_nil, List.mem_singleton] at hr
      subst hr
      exact ⟨rfl, rfl⟩
  | some e =>
    have hpe := List.find?_some hf
    have hemem := List.mem_of_find?_eq_some hf
    have hein : e ∈ pairRows db s.student_id sub.subject_id :=
      List.mem_filter.mpr ⟨hemem, hpe⟩
    have hpos : 1 ≤ pairCount db s.student_id sub.subject_id := by
      rw [pairCount]
      exact List.length_pos.mpr (List.ne_nil_of_mem hein)
    obtain ⟨e', he'⟩ := List.length_eq_one.mp (le_antisymm hle hpos)
    have hee' : e = e' := by
      have := hein
      rw [pairCount] at *
      rw [he'] at this
      exact List.mem_singleton.mp this
    subst hee'
    have hpf : ∀ x : Mark,
        ((fun x => x.student_id == s.student_id && x.subject_id == sub.subject_id) ∘
          (fun x => if x.mark_id == e.mark_id then
            { x with marks := m, max_marks := mm } else x)) x =
        (fun x => x.student_id == s.student_id && x.subject_id == sub.subject_id) x := by
      intro x
      by_cases hid : x.mark_id = e.mark_id <;> simp [hid]
    have hfmap : pairRows (add_marks db roll code m mm).2 s.student_id sub.subject_id =
        (pairRows db s.student_id sub.subject_id).map
          (fun x => if x.mark_id == e.mark_id then
            { x with marks := m, max_marks := mm } else x) := by
      simp only [add_marks, hs, hsub, hf, pairRows]
      rw [List.filter_map, funext hpf]
    refine ⟨by simp [add_marks, hs, hsub, hf], ?_, ?_⟩
    · rw [pairCount, hfmap, pairRows] at *
      rw [he']
      rfl
    · intro r hr
      rw [hfmap, pairRows] at hr
      rw [pairRows] at he'
      rw [he'] at hr
      simp only [List.map_cons, List.map_nil, List.mem_singleton] at hr
      subst hr
      simp

/-- C3: on a store satisfying the at-most-one-mark-per-pair invariant, an
add_marks call whose roll and subject code both resolve leaves exactly one
mark row for that (student, subject) pair, carrying the newly supplied marks
and max_marks; a second identical call still leaves exactly one such row with
the same values, never a duplicate. -/
theorem C3_upsert_single_row (db : DB) (roll code : String) (m mm : ℚ)
    (s : Student) (sub : Subject)
    (hs : db.students.find? (fun x => x.roll == roll) = some s)
    (hsub : db.subjects.find? (fun x => x.code == code) = some sub)
    (hle : pairCount db s.student_id sub.subject_id ≤ 1) :
    pairCount (add_marks db roll code m mm).2 s.student_id sub.subject_id = 1 ∧
    (∀ r ∈ pairRows (add_marks db roll code m mm).2 s.student_id sub.subject_id,
      r.marks = m ∧ r.max_marks = mm) ∧
    pairCount (add_marks (add_marks db roll code m mm).2 roll code m mm).2
      s.student_id sub.subject_id = 1 ∧
    ∀ r ∈ pairRows (add_marks (add_marks db roll code m mm).2 roll code m mm).2
        s.student_id sub.subject_id, r.marks = m ∧ r.max_marks = mm := by
  have h1 := add_marks_pair_state db roll code m mm s sub hs hsub hle
  have hkeep := add_marks_keeps_entities db roll code m mm
  have hs1 : (add_marks db roll code m mm).2.students.find?
      (fun x => x.roll == roll) = some s := by rw [hkeep.1]; exact hs
  have hsub1 : (add_marks db roll code m mm).2.subjects.find?
      (fun x => x.code == code) = some sub := by rw [hkeep.2]; exact hsub
  have h2 := add_marks_pair_state (add_marks db roll code m mm).2 roll code m mm
    s sub hs1 hsub1 (le_of_eq h1.2.1)
  exact ⟨h1.2.1, h1.2.2, h2.2.1, h2.2.2⟩

/-- Witness for C3 on the concrete store with student R1 (student_id 1) and
subject S1 (subject_id 1) and no marks: after one call and after two
identical calls there is exactly one mark row for the pair. -/
theorem C3_upsert_single_row_witness :
    pairCount (add_marks noMarksDB "R1" "S1" 50 100).2 1 1 = 1 ∧
    pairCount (add_marks (add_marks noMarksDB "R1" "S1" 50 100).2
      "R1" "S1" 50 100).2 1 1 = 1 :=
  ⟨(C3_upsert_single_row noMarksDB "R1" "S1" 50 100 ⟨1, "R1", "Alice", ""⟩
      ⟨1, "S1", "Math", 3⟩ (by simp [noMarksDB]) (by simp [noMarksDB])
      (by simp [pairCount, pairRows, noMarksDB])).1,
   (C3_upsert_single_row noMarksDB "R1" "S1" 50 100 ⟨1, "R1", "Alice", ""⟩
      ⟨1, "S1", "Math", 3⟩ (by simp [noMarksDB]) (by simp [noMarksDB])
      (by simp [pairCount, pairRows, noMarksDB])).2.2.1⟩

/-- filterMap keeps exactly the elements on which the function is some. -/
theorem length_filterMap_isSome {α β : Type} (f : α → Option β) (l : List α) :
    (l.filterMap f).length = (l.filter (fun a => (f a).isSome)).length := by
  induction l with
  | nil => rfl
  | cons a t ih =>
    cases h : f a <;> simp [List.filterMap_cons, List.filter_cons, h, ih]

/-- C6 counterexample: in the store where students R1 and R2 (iteration
order R1 then R2, both with cgpa 9.0) tie, the class CGPA table lists R2
before R1 -- the descending pandas sort reverses the iteration order on ties
rather than keeping roll ascending. -/
theorem C6_counterexample :
    (get_all_students tieDB).map Student.roll = ["R1", "R2"] ∧
    (rank_all tieDB).map RankRow.cgpa = [9, 9] ∧
    (rank_all tieDB).map RankRow.roll = ["R2", "R1"] ∧
    (rank_all tieDB).map RankRow.roll ≠ ["R1", "R2"] := by
  refine ⟨?_, ?_, ?_, ?_⟩
  · simp [get_all_students, tieDB, List.insertionSort, List.orderedInsert]
    decide
  · simp [rank_all, get_all_students, compute_student_report, raw_rows, to_grade_row,
      grade_from_percent, round2, roundHalfEven, tieDB, List.insertionSort,
      List.orderedInsert]
    norm_num [Int.fract]
  · simp [rank_all, get_all_students, compute_student_report, raw_rows, to_grade_row,
      grade_from_percent, round2, roundHalfEven, tieDB, List.insertionSort,
      List.orderedInsert]
  · simp [rank_all, get_all_students, compute_student_report, raw_rows, to_grade_row,
      grade_from_percent, round2, roundHalfEven, tieDB, List.insertionSort,
      List.orderedInsert]

/-- C6 as amended: the class CGPA table has exactly one row per student whose
report is non-None (students with no marks are silently excluded), it is
sorted by cgpa descending, and on ties the rows appear in the reverse of the
roll-ascending iteration order (pandas implements the single-key descending
sort by reversing an ascending argsort), as the tied concrete store shows. -/
theorem C6_rank_all_amended :
    (∀ db r, r ∈ rank_all db ↔ ∃ s ∈ db.students, ∃ p,
      compute_student_report db s.student_id = some p ∧
      r = ⟨p.2.roll, p.2.name, p.2.cgpa, p.2.total_credits⟩) ∧
    (∀ db, (rank_all db).length = (db.students.filter
      (fun s => (compute_student_report db s.student_id).isSome)).length) ∧
    (∀ db, (rank_all db).Pairwise (fun a b => b.cgpa ≤ a.cgpa)) ∧
    (rank_all tieDB).map RankRow.roll = ["R2", "R1"] := by
  refine ⟨?_, ?_, ?_, ?_⟩
  · intro db r
    simp only [rank_all, List.mem_reverse]
    constructor
    · intro hr
      have h1 := (List.perm_insertionSort
        (fun a b : RankRow => a.cgpa ≤ b.cgpa) _).mem_iff.mp hr
      obtain ⟨s, hsmem, hfs⟩ := List.mem_filterMap.mp h1
      have hsdb : s ∈ db.students := (List.perm_insertionSort
        (fun a b : Student => a.roll ≤ b.roll) db.students).mem_iff.mp hsmem
      obtain ⟨p, hp, hpr⟩ := Option.map_eq_some'.mp hfs
      exact ⟨s, hsdb, p, hp, hpr.symm⟩
    · rintro ⟨s, hsdb, p, hp, rfl⟩
      apply (List.perm_insertionSort (fun a b : RankRow => a.cgpa ≤ b.cgpa) _).mem_iff.mpr
      apply List.mem_filterMap.mpr
      refine ⟨s, ?_, ?_⟩
      · exact (List.perm_insertionSort
          (fun a b : Student => a.roll ≤ b.roll) db.students).mem_iff.mpr hsdb
      · rw [hp]
        rfl
  · intro db
    simp only [rank_all, get_all_students, List.length_reverse]
    rw [(List.perm_insertionSort (fun a b : RankRow => a.cgpa ≤ b.cgpa) _).length_eq]
    rw [length_filterMap_isSome]
    simp only [Option.isSome_map']
    exact ((List.perm_insertionSort (fun a b : Student => a.roll ≤ b.roll)
      db.students).filter
      (fun s => (compute_student_report db s.student_id).isSome)).length_eq
  · intro db
    haveI : IsTotal RankRow (fun a b => a.cgpa ≤ b.cgpa) :=
      ⟨fun a b => le_total a.cgpa b.cgpa⟩
    haveI : IsTrans RankRow (fun a b => a.cgpa ≤ b.cgpa) :=
      ⟨fun a b c hab hbc => le_trans hab hbc⟩
    simp only [rank_all]
    rw [List.pairwise_reverse]
    exact List.sorted_insertionSort (fun a b : RankRow => a.cgpa ≤ b.cgpa) _
  · simp [rank_all, get_all_students, compute_student_report, raw_rows, to_grade_row,
      grade_from_percent, round2, roundHalfEven, tieDB, List.insertionSort,
      List.orderedInsert]

/-- Witness for C6 as amended: the row of student R2 is a member of the class
CGPA table of the tied store. -/
theorem C6_rank_all_amended_witness :
    (⟨"R2", "Bob", 9, 3⟩ : RankRow) ∈ rank_all tieDB :=
  (C6_rank_all_amended.1 tieDB ⟨"R2", "Bob", 9, 3⟩).mpr
    ⟨⟨2, "R2", "Bob", ""⟩, by simp [tieDB],
     ([⟨2, "R2", "Bob", "S1", "Math", 3, 80, 100, 80, "A", 9, 27⟩],
      ⟨"R2", "Bob", 3, 27, 9⟩),
     by simp [compute_student_report, raw_rows, to_grade_row, grade_from_percent,
       round2, roundHalfEven, tieDB]; norm_num [Int.fract],
     rfl⟩

/-- C10: on a store whose students have pairwise distinct student_ids,
whenever compute_student_report returns a result the row list is non-empty,
every row belongs to the queried student, the queried student exists, and the
roll and name of the summary and of every row equal the stored roll and name
of that student. -/
theorem C10_report_rows_belong (db : DB) (sid : Nat) (rows : List GradeRow)
    (summ : ReportSummary)
    (huniq : ∀ s1 ∈ db.students, ∀ s2 ∈ db.students,
      s1.student_id = s2.student_id → s1 = s2)
    (h : compute_student_report db sid = some (rows, summ)) :
    rows ≠ [] ∧
    (∀ r ∈ rows, r.student_id = sid) ∧
    (∃ s ∈ db.students, s.student_id = sid) ∧
    ∀ s ∈ db.students, s.student_id = sid →
      summ.roll = s.roll ∧ summ.name = s.name ∧
      ∀ r ∈ rows, r.roll = s.roll ∧ r.name = s.name := by
  unfold compute_student_report at h
  cases hraw : raw_rows db sid with
  | nil => rw [hraw] at h; exact absurd h (by simp)
  | cons r0 rest =>
    rw [hraw] at h
    simp only [Option.some.injEq, Prod.mk.injEq] at h
    obtain ⟨rfl, rfl⟩ := h
    have hr0 : r0 ∈ raw_rows db sid := by
      rw [hraw]; exact List.mem_cons_self r0 rest
    obtain ⟨hr0sid, ⟨s0, hs0, hs0id, hr0roll, hr0name⟩, -⟩ :=
      raw_rows_fields db sid r0 hr0
    refine ⟨by simp, ?_, ⟨s0, hs0, hs0id⟩, ?_⟩
    · intro r hrr
      obtain ⟨x, hx, rfl⟩ := List.mem_map.mp hrr
      have hxmem : x ∈ raw_rows db sid := by rw [hraw]; exact hx
      exact (raw_rows_fields db sid x hxmem).1
    · intro s hsmem hsid
      have hss0 : s0 = s := huniq s0 hs0 s hsmem (hs0id.trans hsid.symm)
      subst hss0
      refine ⟨hr0roll, hr0name, ?_⟩
      intro r hrr
      obtain ⟨x, hx, rfl⟩ := List.mem_map.mp hrr
      have hxmem : x ∈ raw_rows db sid := by rw [hraw]; exact hx
      obtain ⟨-, ⟨s', hs', hs'id, hxroll, hxname⟩, -⟩ :=
        raw_rows_fields db sid x hxmem
      have hs's0 : s' = s0 := huniq s' hs' s0 hs0 (hs'id.trans hs0id.symm)
      subst hs's0
      exact ⟨hxroll, hxname⟩

/-- Witness for C10 on the worked example store: the report of student 1 has
a non-empty row list and its summary carries the stored roll R1. -/
theorem C10_report_rows_belong_witness :
    exRows ≠ [] ∧ exSumm.roll = "R1" :=
  ⟨(C10_report_rows_belong exDB 1 exRows exSumm
      (by intro s1 h1 s2 h2 _; simp [exDB] at h1 h2; rw [h1, h2]) exDB_report).1,
   ((C10_report_rows_belong exDB 1 exRows exSumm
      (by intro s1 h1 s2 h2 _; simp [exDB] at h1 h2; rw [h1, h2])
      exDB_report).2.2.2 ⟨1, "R1", "Alice", "BSc"⟩ (by simp [exDB]) rfl).1⟩

end StudentDB
